import Mathlib

/-!
Shallow embedding of the quotation-bot pipeline (src/app.py).

The embedded core covers:
- the normalization portion of `parse_command_with_ai` (required-field
  checks, quantity digit coercion, rate decimal coercion, total derivation,
  currency formatting, defaults) as the function `normalize`;
- the delivery dispatcher `send_email_with_attachment` (Resend first,
  Gmail SMTP fallback), with the external network outcomes supplied as
  oracle booleans and an event trace recording which providers were
  attempted and whether the temporary artifact was removed;
- the POST branch of `handle_webhook` as `handle_webhook_post`, with the
  external AI extraction and document-renderer outcomes supplied as
  oracles.

Modelling conventions: Python strings are Lean `String`s (quantity digit
filtering and whitespace stripping are modelled over ASCII, dropping the
Unicode-digit and Unicode-whitespace corner of Python semantics, which no
claim depends on). Python `float` values are modelled faithfully as
IEEE-754 binary64 data `PyFloat` (sign-magnitude significand times a power
of two, plus signed infinities and nan): `pyFloatOfString` implements the
grammar `float()` accepts (sign, digit runs with single underscores
between digits, optional decimal point, optional exponent, and the
case-insensitive inf / infinity / nan forms) with correct
round-to-nearest, ties-to-even; `pyFloatOfInt` is the int-to-double
conversion of the multiplication at line 133 (OverflowError for values
beyond the double range); `pyMul` is binary64 multiplication; and
`pyCurrencyFormat` is the `f"₹{x:,.2f}"` rendering of the exact value of
the double, with half-even rounding to two fractional digits. The type
`Dec` of exact decimals and its `exactCurrencyFormat` rendering are
spec-side only: modelled from the spec's words "exact decimal arithmetic",
they exist to compare the code's binary64 results against the
exact-arithmetic reading of the spec (claim C2).
-/

set_option maxRecDepth 16384

namespace App

/-- Python `str.strip()`: drop leading and trailing whitespace
(ASCII whitespace in the model). -/
def pyStrip (s : String) : String :=
  String.mk (((s.data.dropWhile Char.isWhitespace).reverse.dropWhile Char.isWhitespace).reverse)

/-- Python truthiness of an optional environment/string value:
truthy iff present and non-empty. -/
def isTruthy (o : Option String) : Bool :=
  match o with
  | none => false
  | some s => s != ""

/-- The required-field test of `parse_command_with_ai`
(`field not in context or not str(context[field]).strip()`):
absent, or blank (empty after stripping whitespace). -/
def blankOpt (o : Option String) : Bool :=
  match o with
  | none => true
  | some s => pyStrip s == ""

/-- `re.sub(r"[^\d]", "", s)`: keep only the digit characters. -/
def digitsOf (s : String) : String :=
  String.mk (s.data.filter Char.isDigit)

/-- `s.replace(",", "")`: delete every comma. -/
def stripCommas (s : String) : String :=
  String.mk (s.data.filter (fun c => c != ','))

/-- Value of a digit character. -/
def digitVal (c : Char) : Nat := c.toNat - 48

/-- Python `int` on a string of decimal digits (most significant first). -/
def parseDigits (cs : List Char) : Nat :=
  cs.foldl (fun n c => 10 * n + digitVal c) 0

/-- Modelled from the spec: an exact decimal number `num / 10 ^ exp`. The
spec's data model calls `unitRate` and `total` decimals and asks for exact
arithmetic; this type (unused by the code-side embedding, which computes
with binary64 doubles) states that reading for comparison. -/
structure Dec where
  num : Int
  exp : Nat
deriving DecidableEq

/-- Modelled from the spec: the exact product of two decimals. -/
def Dec.mul (a b : Dec) : Dec := ⟨a.num * b.num, a.exp + b.exp⟩

/-- Round `d * 100` to the nearest integer, ties to even. -/
def roundHalfEvenScaled (d : Dec) : Int :=
  let M : Int := d.num * 100
  let D : Int := (10 : Int) ^ d.exp
  let q := Int.fdiv M D
  let r := M - q * D
  if 2 * r < D then q
  else if D < 2 * r then q + 1
  else if q % 2 == 0 then q else q + 1

/-- Exactly two fractional digits (argument below 100). -/
def twoFrac (r : Nat) : String :=
  String.mk [Nat.digitChar (r / 10), Nat.digitChar (r % 10)]

/-- Chunks of three characters. -/
def chunk3 : List Char → List (List Char)
  | [] => []
  | [a] => [[a]]
  | [a, b] => [[a, b]]
  | a :: b :: c :: rest => [a, b, c] :: chunk3 rest

/-- Thousands grouping of a digit string, commas every three digits from
the right (the `,` flag of Python format). -/
def groupDigits (s : String) : String :=
  String.mk ((List.intercalate [','] (chunk3 s.data.reverse)).reverse)

/-- Modelled from the spec: the `₹...,.2f` rendering of an exact decimal,
as the spec's exact-arithmetic reading of the derived `total` would
produce it. -/
def exactCurrencyFormat (d : Dec) : String :=
  let n := roundHalfEvenScaled d
  let m := n.natAbs
  "₹" ++ (if n < 0 then "-" else "") ++ groupDigits (Nat.repr (m / 100)) ++ "." ++ twoFrac (m % 100)

/-- An IEEE-754 binary64 value as Python computes with: a finite value
`(-1)^neg * m * 2^e` in sign-magnitude form, a signed infinity, or nan
(Python prints nan unsigned, so no sign is carried). -/
inductive PyFloat where
  | finite (neg : Bool) (m : Nat) (e : Int)
  | inf (neg : Bool)
  | nan
deriving DecidableEq

/-- Bit length with explicit fuel (structural recursion). -/
def bitLenAux : Nat → Nat → Nat
  | 0, _ => 0
  | fuel + 1, n => if n = 0 then 0 else bitLenAux fuel (n / 2) + 1

/-- Bit length of a natural number; the fuel bound of four bits per
decimal digit always suffices. -/
def bitLen (n : Nat) : Nat := bitLenAux ((Nat.repr n).length * 4 + 4) n

/-- Decide `2 ^ g * den ≤ num` for an integer exponent `g`. -/
def pow2le (g : Int) (num den : Nat) : Bool :=
  if 0 ≤ g then decide (2 ^ g.toNat * den ≤ num)
  else decide (den ≤ 2 ^ (-g).toNat * num)

/-- Floor of the base-two logarithm of `num / den` (both positive). -/
def ilogb (num den : Nat) : Int :=
  let g : Int := (bitLen num : Int) - (bitLen den : Int)
  if pow2le g num den then g else g - 1

/-- Round `num / den` (with `den` positive) to the nearest natural number,
ties to even. -/
def roundHalfEvenNat (num den : Nat) : Nat :=
  let q := num / den
  let r := num % den
  if 2 * r < den then q
  else if den < 2 * r then q + 1
  else if q % 2 = 0 then q else q + 1

/-- Round the positive real `num / den` to the nearest binary64 value
(round-to-nearest, ties-to-even), with overflow to infinity and gradual
underflow to subnormals. -/
def roundPosToDouble (num den : Nat) : PyFloat :=
  let e := ilogb num den
  if e < -1022 then
    PyFloat.finite false (roundHalfEvenNat (num * 2 ^ 1074) den) (-1074)
  else
    let m := if e ≤ 52 then roundHalfEvenNat (num * 2 ^ (52 - e).toNat) den
             else roundHalfEvenNat num (den * 2 ^ (e - 52).toNat)
    if 1023 ≤ e ∧ 2 ^ 1024 ≤ m * 2 ^ (e - 52).toNat then PyFloat.inf false
    else PyFloat.finite false m (e - 52)

/-- Round the signed real `(-1)^neg * num / den` to the nearest binary64
value; zero keeps the sign (IEEE signed zero). -/
def roundToDouble (neg : Bool) (num den : Nat) : PyFloat :=
  if num = 0 then PyFloat.finite neg 0 0
  else
    match roundPosToDouble num den with
    | PyFloat.finite _ m e => PyFloat.finite neg m e
    | PyFloat.inf _ => PyFloat.inf neg
    | PyFloat.nan => PyFloat.nan

/-- Number of decimal digits of a natural number. -/
def decDigits (n : Nat) : Nat := (Nat.repr n).length

/-- The binary64 value of the decimal literal `(-1)^neg * n * 10 ^ ex`,
as `float()` computes it: magnitudes at or above 1e309 overflow to
infinity, magnitudes below the least subnormal round to (signed) zero,
everything else is rounded exactly. -/
def decLiteralToDouble (neg : Bool) (n : Nat) (ex : Int) : PyFloat :=
  if n = 0 then PyFloat.finite neg 0 0
  else
    let mag : Int := (decDigits n : Int) - 1 + ex
    if 309 ≤ mag then PyFloat.inf neg
    else if mag ≤ -325 then PyFloat.finite neg 0 0
    else if 0 ≤ ex then roundToDouble neg (n * 10 ^ ex.toNat) 1
    else roundToDouble neg n (10 ^ (-ex).toNat)

/-- Fuelled worker for `scanRun` (the fuel is an upper bound on the input
length, so the zero-fuel case is unreachable). -/
def scanRunAux : Nat → List Char → Option (List Char × List Char)
  | 0, cs => some ([], cs)
  | _ + 1, [] => some ([], [])
  | fuel + 1, c :: rest =>
    if c.isDigit then
      match rest with
      | '_' :: rest2 =>
        match scanRunAux fuel rest2 with
        | some (ds, rem) => if ds.isEmpty then none else some (c :: ds, rem)
        | none => none
      | _ =>
        match scanRunAux fuel rest with
        | some (ds, rem) => some (c :: ds, rem)
        | none => none
    else some ([], c :: rest)

/-- Scan a maximal run of digits in which single underscores may stand
between digits (the digit-run lexeme of Python numeric literals accepted
by `float()`): returns the digits and the rest, the run being empty if the
input does not start with a digit, and `none` if an underscore is not
surrounded by digits. -/
def scanRun (cs : List Char) : Option (List Char × List Char) :=
  scanRunAux cs.length cs

/-- Python `float(s)` on an already-stripped string: optional sign, then
the case-insensitive forms inf / infinity / nan, or a decimal literal
built from digit runs (underscores between digits allowed), an optional
point, and an optional exponent part; `none` is the ValueError case. -/
def pyFloatOfString (s : String) : Option PyFloat :=
  let cs0 := s.data
  let neg := match cs0 with
    | '-' :: _ => true
    | _ => false
  let cs := match cs0 with
    | '-' :: t => t
    | '+' :: t => t
    | t => t
  let lower := cs.map Char.toLower
  if lower = ['i', 'n', 'f'] ∨ lower = ['i', 'n', 'f', 'i', 'n', 'i', 't', 'y'] then
    some (PyFloat.inf neg)
  else if lower = ['n', 'a', 'n'] then
    some PyFloat.nan
  else
    match scanRun cs with
    | none => none
    | some (ip, rest1) =>
      match (match rest1 with
             | '.' :: t => scanRun t
             | _ => some ([], rest1)) with
      | none => none
      | some (fp, rest2) =>
        if ip.isEmpty && fp.isEmpty then none
        else
          let n := parseDigits (ip ++ fp)
          let k : Int := (fp.length : Int)
          match rest2 with
          | [] => some (decLiteralToDouble neg n (-k))
          | c :: t =>
            if c = 'e' ∨ c = 'E' then
              let eneg := match t with
                | '-' :: _ => true
                | _ => false
              let t2 := match t with
                | '-' :: u => u
                | '+' :: u => u
                | u => u
              match scanRun t2 with
              | some (eds, []) =>
                if eds.isEmpty then none
                else
                  let ev : Int := if eneg then -(parseDigits eds : Int) else (parseDigits eds : Int)
                  some (decLiteralToDouble neg n (ev - k))
              | _ => none
            else none

/-- The int-to-double conversion Python performs when multiplying the
quantity integer by the rate double (line 133 of src/app.py):
correctly-rounded, and `none` for the OverflowError on integers beyond the
double range. -/
def pyFloatOfInt (n : Nat) : Option PyFloat :=
  match roundToDouble false n 1 with
  | PyFloat.inf _ => none
  | f => some f

/-- Binary64 multiplication with the IEEE special cases Python follows:
nan is absorbing, infinity times zero is nan, signs multiply, and the
finite product is rounded to the nearest double (overflowing to
infinity). -/
def pyMul : PyFloat → PyFloat → PyFloat
  | PyFloat.nan, _ => PyFloat.nan
  | _, PyFloat.nan => PyFloat.nan
  | PyFloat.inf s1, PyFloat.inf s2 => PyFloat.inf (xor s1 s2)
  | PyFloat.inf s1, PyFloat.finite s2 m _ =>
    if m = 0 then PyFloat.nan else PyFloat.inf (xor s1 s2)
  | PyFloat.finite s1 m _, PyFloat.inf s2 =>
    if m = 0 then PyFloat.nan else PyFloat.inf (xor s1 s2)
  | PyFloat.finite s1 m1 e1, PyFloat.finite s2 m2 e2 =>
    let s := xor s1 s2
    let e := e1 + e2
    if 0 ≤ e then roundToDouble s (m1 * m2 * 2 ^ e.toNat) 1
    else roundToDouble s (m1 * m2) (2 ^ (-e).toNat)

/-- The scaled integer `round(|x| * 100)` (ties to even) of a finite
double of magnitude `m * 2 ^ e`: the two-fractional-digit rendering of
Python's `:,.2f` formatting, which rounds the exact binary value. -/
def pyScaled2 (m : Nat) (e : Int) : Nat :=
  if 0 ≤ e then m * 100 * 2 ^ e.toNat
  else roundHalfEvenNat (m * 100) (2 ^ (-e).toNat)

/-- Python `f"₹{x:,.2f}"` on a double: currency symbol, then `inf`, `-inf`
or `nan` for the non-finite values, and otherwise an optional sign (signed
zero keeps its sign), the thousands-grouped integer part, a point and
exactly two fractional digits of the correctly-rounded exact value. -/
def pyCurrencyFormat (x : PyFloat) : String :=
  match x with
  | PyFloat.nan => "₹nan"
  | PyFloat.inf neg => if neg then "₹-inf" else "₹inf"
  | PyFloat.finite neg m e =>
    let scaled := pyScaled2 m e
    "₹" ++ (if neg then "-" else "") ++ groupDigits (Nat.repr (scaled / 100)) ++ "." ++
      twoFrac (scaled % 100)

/-- The raw extraction: the JSON object returned by the extraction service,
restricted to the ten schema fields (string values; an absent key is
`none`). -/
structure RawExtraction where
  q_no : Option String
  date : Option String
  company_name : Option String
  customer_name : Option String
  product : Option String
  quantity : Option String
  rate : Option String
  units : Option String
  hsn : Option String
  email : Option String
deriving DecidableEq

/-- The canonical quotation context produced by normalization (the mutated
`context` dict at the end of `parse_command_with_ai`). -/
structure QuotationContext where
  q_no : String
  date : String
  company_name : String
  customer_name : String
  product : String
  quantity : String
  rate : String
  units : String
  hsn : String
  email : String
  rate_formatted : String
  total : String
deriving DecidableEq

/-- Required-field extraction: `none` when the field is absent or blank,
otherwise the original (unstripped) value. -/
def requireField (o : Option String) : Option String :=
  match o with
  | none => none
  | some s => if pyStrip s == "" then none else some s

/-- `context.get('units') or "Nos"`: the default kicks in when the key is
absent or its value is falsy (the empty string). -/
def unitsDefault (o : Option String) : String :=
  match o with
  | none => "Nos"
  | some u => if u == "" then "Nos" else u

/-- The numeric-coercion, formatting and defaulting tail of
`parse_command_with_ai` (lines 130-151 of src/app.py), after the five
required fields have been extracted. -/
def normalizeFields (q_no date company_name units hsn : Option String)
    (customer_name product email rate quantity : String) (today : String) :
    Option QuotationContext :=
  if digitsOf quantity == "" then none
  else
    match pyFloatOfString (pyStrip (stripCommas rate)) with
    | none => none
    | some price =>
      let qty_num := parseDigits (digitsOf quantity).data
      match pyFloatOfInt qty_num with
      | none => none
      | some qtyF =>
        let total_num := pyMul qtyF price
        some { q_no := q_no.getD ""
               date := date.getD today
               company_name := company_name.getD ""
               customer_name := customer_name
               product := product
               quantity := Nat.repr qty_num
               rate := pyCurrencyFormat price
               units := unitsDefault units
               hsn := hsn.getD ""
               email := email
               rate_formatted := pyCurrencyFormat price
               total := pyCurrencyFormat total_num }

/-- The Record Normalizer: the pure part of `parse_command_with_ai` from
the parsed JSON `context` on (lines 122-151 of src/app.py), with the
current date supplied as an explicit input. Returns `none` exactly where
the code returns `None` (missing/blank required field, no digit in the
quantity, a rate string `float()` rejects, or a quantity beyond the double
range, whose int-to-double conversion raises OverflowError). -/
def normalize (raw : RawExtraction) (today : String) : Option QuotationContext :=
  match requireField raw.product, requireField raw.customer_name, requireField raw.email,
        requireField raw.rate, requireField raw.quantity with
  | some product, some customer_name, some email, some rate, some quantity =>
    normalizeFields raw.q_no raw.date raw.company_name raw.units raw.hsn
      customer_name product email rate quantity today
  | _, _, _, _, _ => none

/-- The two email delivery providers, in the priority order of the code:
Resend (HTTPS) first, Gmail SMTP as fallback. -/
inductive Provider where
  | resend
  | gmail
deriving DecidableEq

/-- Environment of `send_email_with_attachment`: the credential variables
and, as oracles, the outcomes of the external calls.
`resendSucceeds` is true when the Resend POST returns a 2xx status (false
covers both a non-2xx response and a raised exception, which the code
treats alike by falling through); `gmailSucceeds` likewise for the SMTP
send; `removeSucceeds` is whether `os.remove` of the artifact succeeds. -/
structure EmailEnv where
  RESEND_API_KEY : Option String
  GMAIL_USER : Option String
  GMAIL_PASS : Option String
  resendSucceeds : Bool
  gmailSucceeds : Bool
  removeSucceeds : Bool
deriving DecidableEq

/-- Observable outcome of one dispatch: the returned boolean, the providers
actually attempted (in order), whether artifact removal was attempted, and
whether the artifact was actually removed. -/
structure SendTrace where
  success : Bool
  attempts : List Provider
  removeAttempted : Bool
  removed : Bool
deriving DecidableEq

/-- The empty trace: no attempt, no removal. -/
def noSend : SendTrace := ⟨false, [], false, false⟩

/-- The Gmail SMTP fallback block of `send_email_with_attachment`
(lines 233-258 of src/app.py): skipped when either credential is missing,
otherwise one attempt whose success removes the artifact best-effort. -/
def gmailStage (env : EmailEnv) (prior : List Provider) : SendTrace :=
  if isTruthy env.GMAIL_USER && isTruthy env.GMAIL_PASS then
    if env.gmailSucceeds then
      ⟨true, prior ++ [Provider.gmail], true, env.removeSucceeds⟩
    else
      ⟨false, prior ++ [Provider.gmail], false, false⟩
  else
    ⟨false, prior, false, false⟩

/-- The Delivery Dispatcher `send_email_with_attachment`
(lines 191-258 of src/app.py): falsy attachment path fails at once; Resend
is attempted only when `RESEND_API_KEY` is set, a 2xx response removes the
artifact best-effort and returns success; otherwise the Gmail SMTP
fallback runs. -/
def send_email_with_attachment (env : EmailEnv) (attachment_path : Option String) :
    SendTrace :=
  if isTruthy attachment_path then
    if isTruthy env.RESEND_API_KEY then
      if env.resendSucceeds then
        ⟨true, [Provider.resend], true, env.removeSucceeds⟩
      else
        gmailStage env [Provider.resend]
    else
      gmailStage env []
  else
    noSend

/-- An inbound POST webhook event, as the body-parsing prologue of
`handle_webhook` classifies it (lines 280-316 of src/app.py):
a body that raises during parsing, a body without entries, a change whose
message is not of type text, a status update, a change with neither
messages nor statuses, or a text message carrying a sender phone and a
command text. -/
inductive InboundPost where
  | malformedBody
  | noEntry
  | nonTextMessage
  | statusUpdate
  | otherChange
  | textMessage (fromPhone : String) (body : String)
deriving DecidableEq

/-- Pipeline environment: the outcome of the external AI call and JSON
parse (`none` for a service error or unparseable payload, `some raw` for a
parsed extraction), the current date, the outcome of
`create_quotation_from_template` (`none` for a render failure, `some path`
for the saved artifact path), and the email environment. -/
structure PipelineEnv where
  aiResult : Option RawExtraction
  today : String
  renderResult : Option String
  email : EmailEnv
deriving DecidableEq

/-- Observable outcome of one POST webhook invocation: the HTTP status
returned, the WhatsApp reply text handed to the Notifier (if any), whether
the Document Renderer was invoked, and the dispatch trace. -/
structure WebhookResult where
  status : Nat
  reply : Option String
  rendered : Bool
  send : SendTrace
deriving DecidableEq

/-- The acknowledgement with no pipeline action. -/
def ignored : WebhookResult := ⟨200, none, false, noSend⟩

/-- Reply sent when extraction or normalization fails. -/
def couldNotUnderstandMsg : String :=
  "Sorry, I couldn\x27t understand your request. Please check the details and try again."

/-- Reply sent when document rendering fails. -/
def internalErrorMsg : String :=
  "Sorry, an internal error occurred while creating your document."

/-- Reply sent on full success. -/
def successMsg (product email : String) : String :=
  "Success! Your quotation for " ++ product ++ " has been generated and sent to " ++ email ++ "."

/-- Reply sent when the document was created but every delivery provider
failed. -/
def emailFailMsg (email : String) : String :=
  "Sorry, I created the quote but failed to send the email to " ++ email ++ "."

/-- The POST branch of `handle_webhook` (lines 280-357 of src/app.py).
Non-text events are acknowledged with no action; a text message with a
truthy sender and body runs the pipeline: AI parse + normalization
(failure replies that the request was not understood), document rendering
(failure replies with an internal error), then dispatch (success or
email-failure reply). Every branch returns HTTP 200. -/
def handle_webhook_post (ev : InboundPost) (env : PipelineEnv) : WebhookResult :=
  match ev with
  | InboundPost.malformedBody => ignored
  | InboundPost.noEntry => ignored
  | InboundPost.nonTextMessage => ignored
  | InboundPost.statusUpdate => ignored
  | InboundPost.otherChange => ignored
  | InboundPost.textMessage fromPhone body =>
    if fromPhone == "" || body == "" then ignored
    else
      match env.aiResult.bind (fun raw => normalize raw env.today) with
      | none => ⟨200, some couldNotUnderstandMsg, false, noSend⟩
      | some ctx =>
        match env.renderResult with
        | none => ⟨200, some internalErrorMsg, true, noSend⟩
        | some path =>
          let tr := send_email_with_attachment env.email (some path)
          if tr.success then
            ⟨200, some (successMsg ctx.product ctx.email), true, tr⟩
          else
            ⟨200, some (emailFailMsg ctx.email), true, tr⟩

/-! Concrete inputs used by witnesses and counterexamples. -/

/-- The scenario extraction of the spec: Raju, 500 units of 3in pipe at
rate 600. -/
def rawRaju : RawExtraction :=
  { q_no := none, date := none, company_name := none, customer_name := some "Raju",
    product := some "3in pipe", quantity := some "500", rate := some "600",
    units := none, hsn := none, email := some "raju@test.com" }

/-- The record `normalize rawRaju "October 12, 2025"` produces. -/
def recRaju : QuotationContext :=
  { q_no := "", date := "October 12, 2025", company_name := "", customer_name := "Raju",
    product := "3in pipe", quantity := "500", rate := "₹600.00", units := "Nos",
    hsn := "", email := "raju@test.com", rate_formatted := "₹600.00",
    total := "₹300,000.00" }

/-- The scenario extraction with a whitespace-only units value. -/
def rawUnitsBlank : RawExtraction := { rawRaju with units := some " " }

/-- The scenario extraction with the product missing. -/
def rawNoProduct : RawExtraction := { rawRaju with product := none }

/-- The scenario extraction with a digit-free quantity. -/
def rawAbc : RawExtraction := { rawRaju with quantity := some "abc" }

/-- The scenario extraction with a signed quantity. -/
def rawNeg : RawExtraction := { rawRaju with quantity := some "-5" }

/-- The record `normalize rawNeg "October 12, 2025"` produces. -/
def recNeg : QuotationContext :=
  { recRaju with quantity := "5", total := "₹3,000.00" }

/-- The scenario extraction with quantity 1 and rate 2.675: the nearest
double to 2.675 lies just below it, so the code renders the total as
"₹2.67" while the exact product would render as "₹2.68". -/
def rawRate2675 : RawExtraction :=
  { rawRaju with quantity := some "1", rate := some "2.675" }

/-- The scenario extraction with rate "inf", which `float()` accepts. -/
def rawInf : RawExtraction := { rawRaju with rate := some "inf" }

/-- An email environment with every credential present and every external
call succeeding. -/
def envEmailAll : EmailEnv :=
  { RESEND_API_KEY := some "rk", GMAIL_USER := some "gu", GMAIL_PASS := some "gp",
    resendSucceeds := true, gmailSucceeds := true, removeSucceeds := true }

/-- A pipeline environment around a given extraction outcome. -/
def mkEnv (raw : RawExtraction) : PipelineEnv :=
  { aiResult := some raw, today := "October 12, 2025",
    renderResult := some "/tmp/Quotation_Raju_2025-10-12.docx", email := envEmailAll }

/-! Helper lemmas. -/

/-- A required field passes the check iff it is neither absent nor blank. -/
theorem requireField_eq_none (o : Option String) :
    requireField o = none ↔ blankOpt o = true := by
  cases o with
  | none => simp [requireField, blankOpt]
  | some s =>
    simp only [requireField, blankOpt]
    split
    · simp_all
    · simp_all

/-- A passing required field is returned unchanged. -/
theorem requireField_some (o : Option String) (s : String)
    (h : requireField o = some s) : o = some s := by
  cases o with
  | none => simp [requireField] at h
  | some t =>
    simp only [requireField] at h
    split at h
    · cases h
    · simpa using h

/-- Inversion of a successful normalization: the five required fields
passed the check, the quantity contains a digit, the rate parsed, and
every field of the record is determined. -/
theorem normalize_some_inv (raw : RawExtraction) (today : String) (rec : QuotationContext)
    (h : normalize raw today = some rec) :
    ∃ (product customer_name email rate quantity : String) (price qtyF : PyFloat),
      requireField raw.product = some product ∧
      requireField raw.customer_name = some customer_name ∧
      requireField raw.email = some email ∧
      requireField raw.rate = some rate ∧
      requireField raw.quantity = some quantity ∧
      digitsOf quantity ≠ "" ∧
      pyFloatOfString (pyStrip (stripCommas rate)) = some price ∧
      pyFloatOfInt (parseDigits (digitsOf quantity).data) = some qtyF ∧
      rec = { q_no := raw.q_no.getD ""
              date := raw.date.getD today
              company_name := raw.company_name.getD ""
              customer_name := customer_name
              product := product
              quantity := Nat.repr (parseDigits (digitsOf quantity).data)
              rate := pyCurrencyFormat price
              units := unitsDefault raw.units
              hsn := raw.hsn.getD ""
              email := email
              rate_formatted := pyCurrencyFormat price
              total := pyCurrencyFormat (pyMul qtyF price) } := by
  unfold normalize at h
  cases hp : requireField raw.product with
  | none => rw [hp] at h; simp at h
  | some product =>
  cases hc : requireField raw.customer_name with
  | none => rw [hp, hc] at h; simp at h
  | some customer_name =>
  cases he : requireField raw.email with
  | none => rw [hp, hc, he] at h; simp at h
  | some email =>
  cases hr : requireField raw.rate with
  | none => rw [hp, hc, he, hr] at h; simp at h
  | some rate =>
  cases hq : requireField raw.quantity with
  | none => rw [hp, hc, he, hr, hq] at h; simp at h
  | some quantity =>
  rw [hp, hc, he, hr, hq] at h
  simp only [] at h
  unfold normalizeFields at h
  by_cases hd : digitsOf quantity == ""
  · rw [if_pos hd] at h; cases h
  · rw [if_neg hd] at h
    cases hpr : pyFloatOfString (pyStrip (stripCommas rate)) with
    | none => rw [hpr] at h; cases h
    | some price =>
      rw [hpr] at h
      simp only [] at h
      cases hqf : pyFloatOfInt (parseDigits (digitsOf quantity).data) with
      | none => rw [hqf] at h; cases h
      | some qtyF =>
        rw [hqf] at h
        simp only [Option.some.injEq] at h
        exact ⟨product, customer_name, email, rate, quantity, price, qtyF,
          rfl, rfl, rfl, rfl, rfl, by simpa using hd, hpr, hqf, h.symm⟩

/-- Normalization fails whenever one of the five required fields is absent
or blank. -/
theorem normalize_eq_none_of_blank (raw : RawExtraction) (today : String)
    (h : blankOpt raw.product = true ∨ blankOpt raw.customer_name = true ∨
      blankOpt raw.email = true ∨ blankOpt raw.rate = true ∨
      blankOpt raw.quantity = true) :
    normalize raw today = none := by
  unfold normalize
  cases hP : requireField raw.product <;>
  cases hC : requireField raw.customer_name <;>
  cases hE : requireField raw.email <;>
  cases hR : requireField raw.rate <;>
  cases hQ : requireField raw.quantity <;>
    first
    | rfl
    | (exfalso
       rcases h with h | h | h | h | h <;>
         rw [← requireField_eq_none] at h <;> simp_all)

/-- Normalization fails whenever the raw quantity contains no digit
character. -/
theorem normalize_eq_none_of_no_digit (raw : RawExtraction) (today qs : String)
    (hq : raw.quantity = some qs) (hd : digitsOf qs = "") :
    normalize raw today = none := by
  unfold normalize
  cases hP : requireField raw.product <;>
  cases hC : requireField raw.customer_name <;>
  cases hE : requireField raw.email <;>
  cases hR : requireField raw.rate <;>
  cases hQ : requireField raw.quantity <;>
    try rfl
  case some.some.some.some.some p c e r q =>
    have hQs := requireField_some raw.quantity q hQ
    rw [hq] at hQs
    obtain rfl := (Option.some.inj hQs).symm
    simp [normalizeFields, hd]

/-- The pipeline outcome of a text command whose extraction or
normalization failed. -/
theorem webhook_couldnt_understand (env : PipelineEnv) (fromPhone body : String)
    (hph : fromPhone ≠ "") (hbody : body ≠ "")
    (hn : env.aiResult.bind (fun raw => normalize raw env.today) = none) :
    handle_webhook_post (InboundPost.textMessage fromPhone body) env =
      ⟨200, some couldNotUnderstandMsg, false, noSend⟩ := by
  simp only [handle_webhook_post]
  rw [if_neg (by simp [hph, hbody]), hn]

/-! Claim theorems. -/

/-- C1: for every RawExtraction in which any of the fields product,
customer_name, email, rate, quantity is absent or blank (empty after
stripping whitespace), normalization fails, and the pipeline for a text
command whose extraction returned that RawExtraction terminates with the
"couldn't understand" reply while the Document Renderer is never invoked
(rendered stays false and no delivery is attempted). -/
theorem c1_blank_required_field_terminates
    (raw : RawExtraction) (env : PipelineEnv) (fromPhone body : String)
    (henv : env.aiResult = some raw)
    (hph : fromPhone ≠ "") (hbody : body ≠ "")
    (hblank : blankOpt raw.product = true ∨ blankOpt raw.customer_name = true ∨
      blankOpt raw.email = true ∨ blankOpt raw.rate = true ∨
      blankOpt raw.quantity = true) :
    normalize raw env.today = none ∧
    handle_webhook_post (InboundPost.textMessage fromPhone body) env =
      ⟨200, some couldNotUnderstandMsg, false, noSend⟩ := by
  have hn := normalize_eq_none_of_blank raw env.today hblank
  exact ⟨hn, webhook_couldnt_understand env fromPhone body hph hbody
    (by rw [henv]; simpa using hn)⟩

/-- C2 counterexample: quantity 1 at rate "2.675" normalizes with total
"₹2.67", because the code multiplies IEEE-754 doubles and the nearest
double to 2.675 lies just below it; the exact product 1 x 2.675 of the
claim renders as "₹2.68" under the same two-decimal rule, so the total
does not equal quantity times unitRate exactly. -/
theorem c2_counterexample :
    (normalize rawRate2675 "October 12, 2025").map QuotationContext.total =
      some "₹2.67" ∧
    exactCurrencyFormat (Dec.mul ⟨1, 0⟩ ⟨2675, 3⟩) = "₹2.68" ∧
    ("₹2.67" : String) ≠ "₹2.68" := by
  refine ⟨by decide, by decide, by decide⟩

/-- C2 (amended): whenever normalization succeeds, the record's total is
the two-decimal currency rendering of the IEEE-754 binary64 product of the
digit-coerced quantity (converted to a double) and the double parsed from
the separator-stripped rate - binary64 round-to-nearest-even arithmetic,
not exact decimal arithmetic, so the total may differ from the exact
product quantity times unitRate in the last rendered digit. -/
theorem c2_total_double_product (raw : RawExtraction) (today : String)
    (rec : QuotationContext) (h : normalize raw today = some rec) :
    ∃ (qs rs : String) (price qtyF : PyFloat),
      raw.quantity = some qs ∧ raw.rate = some rs ∧
      pyFloatOfString (pyStrip (stripCommas rs)) = some price ∧
      pyFloatOfInt (parseDigits (digitsOf qs).data) = some qtyF ∧
      rec.total = pyCurrencyFormat (pyMul qtyF price) := by
  obtain ⟨p, c, e, r, q, price, qtyF, hp, hc, he, hr, hq, hd, hpr, hqf, hrec⟩ :=
    normalize_some_inv raw today rec h
  exact ⟨q, r, price, qtyF, requireField_some _ _ hq, requireField_some _ _ hr,
    hpr, hqf, by rw [hrec]⟩

/-- C5: normalization turns the raw quantity into the integer parsed from
its digit characters only; when the quantity has no digit at all (such as
"abc"), normalization fails, the sender receives the "couldn't understand"
reply, and no document is rendered. -/
theorem c5_quantity_coercion (raw : RawExtraction) (env : PipelineEnv)
    (fromPhone body qs : String)
    (henv : env.aiResult = some raw) (hph : fromPhone ≠ "") (hbody : body ≠ "")
    (hq : raw.quantity = some qs) :
    (∀ rec : QuotationContext, normalize raw env.today = some rec →
      digitsOf qs ≠ "" ∧ rec.quantity = Nat.repr (parseDigits (digitsOf qs).data)) ∧
    (digitsOf qs = "" →
      normalize raw env.today = none ∧
      handle_webhook_post (InboundPost.textMessage fromPhone body) env =
        ⟨200, some couldNotUnderstandMsg, false, noSend⟩) := by
  constructor
  · intro rec h
    obtain ⟨p, c, e, r, q, price, qtyF, hp, hc, he, hr, hq2, hd, hpr, hqf, hrec⟩ :=
      normalize_some_inv raw env.today rec h
    have hQs := requireField_some raw.quantity q hq2
    rw [hq] at hQs
    obtain rfl := (Option.some.inj hQs).symm
    exact ⟨hd, by rw [hrec]⟩
  · intro hd
    have hn := normalize_eq_none_of_no_digit raw env.today qs hq hd
    exact ⟨hn, webhook_couldnt_understand env fromPhone body hph hbody
      (by rw [henv]; simpa using hn)⟩

/-- The empty attempt list respects the provider order. -/
theorem sublist_nil_pair :
    List.Sublist ([] : List Provider) [Provider.resend, Provider.gmail] := by decide

/-- A Resend-only attempt list respects the provider order. -/
theorem sublist_resend_pair :
    List.Sublist [Provider.resend] [Provider.resend, Provider.gmail] := by decide

/-- A Gmail-only attempt list respects the provider order. -/
theorem sublist_gmail_pair :
    List.Sublist [Provider.gmail] [Provider.resend, Provider.gmail] := by decide

/-- The full attempt list respects the provider order. -/
theorem sublist_pair_pair :
    List.Sublist [Provider.resend, Provider.gmail] [Provider.resend, Provider.gmail] := by
  decide

/-- C3: providers are tried strictly in the order Resend then Gmail SMTP
(the attempt trace is always a sublist of that order); when Resend is
configured and succeeds, dispatch stops with only Resend attempted and the
Gmail fallback is never invoked; a provider is attempted exactly when its
required credentials are present (given a truthy attachment) and a
provider with missing credentials never appears among the attempts, so a
skip is not a failed attempt. -/
theorem c3_dispatch_order (env : EmailEnv) (ap : Option String) :
    List.Sublist (send_email_with_attachment env ap).attempts
      [Provider.resend, Provider.gmail] ∧
    (isTruthy ap = true → isTruthy env.RESEND_API_KEY = true →
      env.resendSucceeds = true →
      send_email_with_attachment env ap =
        ⟨true, [Provider.resend], true, env.removeSucceeds⟩) ∧
    (Provider.resend ∈ (send_email_with_attachment env ap).attempts ↔
      isTruthy ap = true ∧ isTruthy env.RESEND_API_KEY = true) ∧
    (Provider.gmail ∈ (send_email_with_attachment env ap).attempts ↔
      isTruthy ap = true ∧ (isTruthy env.GMAIL_USER && isTruthy env.GMAIL_PASS) = true ∧
        ¬(isTruthy env.RESEND_API_KEY = true ∧ env.resendSucceeds = true)) := by
  cases hap : isTruthy ap <;>
  cases hrk : isTruthy env.RESEND_API_KEY <;>
  cases hrs : env.resendSucceeds <;>
  cases hgu : isTruthy env.GMAIL_USER <;>
  cases hgp : isTruthy env.GMAIL_PASS <;>
  cases hgs : env.gmailSucceeds <;>
    simp_all [send_email_with_attachment, gmailStage, noSend,
      sublist_nil_pair, sublist_resend_pair, sublist_gmail_pair, sublist_pair_pair]

/-- C4: every inbound POST webhook event is acknowledged with HTTP 200,
whatever the internal outcome: malformed or non-text events, extraction or
normalization failure, render failure, delivery failure and success all
return status 200 (the embedding is a total function, so no stage failure
escapes as an unhandled fault). -/
theorem c4_webhook_always_acknowledges (ev : InboundPost) (env : PipelineEnv) :
    (handle_webhook_post ev env).status = 200 := by
  cases ev <;> try rfl
  next fromPhone body =>
    simp only [handle_webhook_post]
    split
    · rfl
    · split
      · rfl
      · split
        · rfl
        · split <;> rfl

/-- C6 counterexample: a units value of a single space is blank (empty
after stripping whitespace), yet normalization keeps it instead of
defaulting it to "Nos", because the code replaces only a falsy units value
(`context.get('units') or "Nos"`). -/
theorem c6_counterexample :
    blankOpt rawUnitsBlank.units = true ∧
    (normalize rawUnitsBlank "October 12, 2025").map QuotationContext.units =
      some " " ∧
    (" " : String) ≠ "Nos" := by
  refine ⟨by decide, by decide, by decide⟩

/-- C6 (amended): for every RawExtraction that normalizes successfully,
absent optional fields receive defaults: date gets the supplied today
date, company_name / hsn / q_no get the empty string, and units becomes
"Nos" when units is absent or the empty string (a whitespace-only units
value, being truthy in the code, is kept unchanged). -/
theorem c6_defaults (raw : RawExtraction) (today : String) (rec : QuotationContext)
    (h : normalize raw today = some rec) :
    (raw.date = none → rec.date = today) ∧
    (raw.company_name = none → rec.company_name = "") ∧
    (raw.hsn = none → rec.hsn = "") ∧
    (raw.q_no = none → rec.q_no = "") ∧
    ((raw.units = none ∨ raw.units = some "") → rec.units = "Nos") := by
  obtain ⟨p, c, e, r, q, price, qtyF, hp, hc, he, hr, hq, hd, hpr, hqf, hrec⟩ :=
    normalize_some_inv raw today rec h
  subst hrec
  refine ⟨fun hx => ?_, fun hx => ?_, fun hx => ?_, fun hx => ?_, fun hx => ?_⟩
  · simp [hx]
  · simp [hx]
  · simp [hx]
  · simp [hx]
  · rcases hx with hx | hx <;> simp [hx, unitsDefault]

/-- C7: artifact removal is attempted exactly when some provider
succeeded; the artifact is actually removed only when removal also
succeeds, and the dispatch result does not depend on whether removal
succeeds (removal failure is not escalated); when every provider fails or
is skipped the artifact is never touched. -/
theorem c7_artifact_removal (env : EmailEnv) (ap : Option String) (b : Bool) :
    (send_email_with_attachment env ap).removeAttempted =
      (send_email_with_attachment env ap).success ∧
    (send_email_with_attachment env ap).removed =
      ((send_email_with_attachment env ap).success && env.removeSucceeds) ∧
    (send_email_with_attachment { env with removeSucceeds := b } ap).success =
      (send_email_with_attachment env ap).success := by
  cases hap : isTruthy ap <;>
  cases hrk : isTruthy env.RESEND_API_KEY <;>
  cases hrs : env.resendSucceeds <;>
  cases hgu : isTruthy env.GMAIL_USER <;>
  cases hgp : isTruthy env.GMAIL_PASS <;>
  cases hgs : env.gmailSucceeds <;>
    simp_all [send_email_with_attachment, gmailStage, noSend]

/-- A digit character rendered from a value below ten is a digit. -/
theorem digitChar_isDigit (n : Nat) (h : n < 10) :
    (Nat.digitChar n).isDigit = true := by
  interval_cases n <;> decide

/-- The currency rendering of every finite double is the rupee symbol
followed by a body ending in a point and exactly two digit characters. -/
theorem pyCurrencyFormat_finite_shape (neg : Bool) (m : Nat) (e : Int) :
    ∃ (mid : String) (d1 d2 : Char),
      pyCurrencyFormat (PyFloat.finite neg m e) =
        "₹" ++ (mid ++ ("." ++ String.mk [d1, d2])) ∧
      d1.isDigit = true ∧ d2.isDigit = true := by
  refine ⟨(if neg then "-" else "") ++ groupDigits (Nat.repr (pyScaled2 m e / 100)),
    Nat.digitChar (pyScaled2 m e % 100 / 10),
    Nat.digitChar (pyScaled2 m e % 100 % 10), ?_, ?_, ?_⟩
  · simp only [pyCurrencyFormat, twoFrac, String.append_assoc]
  · exact digitChar_isDigit _ (by omega)
  · exact digitChar_isDigit _ (by omega)

/-- C8 counterexample: the rate "inf" is accepted by `float()` and
normalization succeeds, overwriting the rate with "₹inf": a currency
string that contains no digit at all, hence is not rendered with two
fractional digits and thousands grouping as the claim states for every
successfully normalized record. -/
theorem c8_counterexample :
    (normalize rawInf "October 12, 2025").map QuotationContext.rate = some "₹inf" ∧
    (normalize rawInf "October 12, 2025").map QuotationContext.total = some "₹inf" ∧
    ("₹inf" : String).data.all (fun c => !c.isDigit) = true := by
  refine ⟨by decide, by decide, by decide⟩

/-- C8 (amended): in every successfully normalized record the rate field
is overwritten with its formatted presentation string (identical to
rate_formatted, so the unformatted rate is not exposed downstream);
whenever the parsed rate is a finite double the formatted rate is
currency-symbol-prefixed with a point, exactly two fractional digits and
the thousands grouping of `groupDigits`, and likewise for the total
whenever the double product is finite; the non-finite values `float()`
also accepts render as "₹inf", "₹-inf" or "₹nan". -/
theorem c8_rate_overwritten (raw : RawExtraction) (today : String) (rec : QuotationContext)
    (h : normalize raw today = some rec) :
    ∃ (rs : String) (price qtyF : PyFloat),
      raw.rate = some rs ∧
      pyFloatOfString (pyStrip (stripCommas rs)) = some price ∧
      rec.rate = pyCurrencyFormat price ∧
      rec.rate = rec.rate_formatted ∧
      rec.total = pyCurrencyFormat (pyMul qtyF price) ∧
      (∀ neg m e, price = PyFloat.finite neg m e →
        ∃ mid d1 d2, rec.rate = "₹" ++ (mid ++ ("." ++ String.mk [d1, d2])) ∧
          d1.isDigit = true ∧ d2.isDigit = true) ∧
      (∀ neg m e, pyMul qtyF price = PyFloat.finite neg m e →
        ∃ mid d1 d2, rec.total = "₹" ++ (mid ++ ("." ++ String.mk [d1, d2])) ∧
          d1.isDigit = true ∧ d2.isDigit = true) := by
  obtain ⟨p, c, e, r, q, price, qtyF, hp, hc, he, hr, hq, hd, hpr, hqf, hrec⟩ :=
    normalize_some_inv raw today rec h
  subst hrec
  refine ⟨r, price, qtyF, requireField_some _ _ hr, hpr, rfl, rfl, rfl, ?_, ?_⟩
  · intro neg m ex hfin
    rw [hfin]
    exact pyCurrencyFormat_finite_shape neg m ex
  · intro neg m ex hfin
    show ∃ mid d1 d2, pyCurrencyFormat (pyMul qtyF price) =
      "₹" ++ (mid ++ ("." ++ String.mk [d1, d2])) ∧ d1.isDigit = true ∧ d2.isDigit = true
    rw [hfin]
    exact pyCurrencyFormat_finite_shape neg m ex

/-- C9: the embedded normalization stage is a pure function of the
RawExtraction and the explicitly supplied today date (the hidden-clock
read and logging of the source sit outside it), so it is deterministic:
normalizing the same RawExtraction twice yields identical records. -/
theorem c9_normalize_deterministic (raw : RawExtraction) (today : String) :
    normalize raw today = normalize raw today ∧
    ∀ r1 r2 : QuotationContext, normalize raw today = some r1 →
      normalize raw today = some r2 → r1 = r2 := by
  refine ⟨rfl, fun r1 r2 h1 h2 => ?_⟩
  rw [h1] at h2
  exact Option.some.inj h2

/-- C10: every successfully normalized quantity is the decimal rendering
of a natural number (hence nonnegative), because the coercion deletes
every non-digit character before parsing; in particular a minus sign or a
decimal point is silently dropped, so "-5" coerces to 5 and "2.5" to
25. -/
theorem c10_quantity_digits_only (raw : RawExtraction) (today : String)
    (rec : QuotationContext) (h : normalize raw today = some rec) :
    (∃ n : Nat, rec.quantity = Nat.repr n) ∧
    digitsOf "-5" = "5" ∧ digitsOf "2.5" = "25" ∧
    parseDigits (digitsOf "-5").data = 5 ∧ parseDigits (digitsOf "2.5").data = 25 := by
  obtain ⟨p, c, e, r, q, price, qtyF, hp, hc, he, hr, hq, hd, hpr, hqf, hrec⟩ :=
    normalize_some_inv raw today rec h
  subst hrec
  exact ⟨⟨parseDigits (digitsOf q).data, rfl⟩, by decide, by decide, by decide, by decide⟩

/-! Witnesses: each claim theorem with hypotheses, applied at a concrete
input. -/

/-- Witness for C1: an extraction with the product missing is rejected and
routed to the could-not-understand reply without rendering. -/
theorem c1_witness :
    normalize rawNoProduct (mkEnv rawNoProduct).today = none ∧
    handle_webhook_post (InboundPost.textMessage "15551234567" "quote for Raju")
      (mkEnv rawNoProduct) =
      ⟨200, some couldNotUnderstandMsg, false, noSend⟩ :=
  c1_blank_required_field_terminates rawNoProduct (mkEnv rawNoProduct)
    "15551234567" "quote for Raju" rfl (by decide) (by decide) (Or.inl (by decide))

/-- Witness for C2 (amended): in the spec scenario both 500 and 600 are
exactly representable doubles, so the binary64 product renders as the
expected "₹300,000.00". -/
theorem c2_witness :
    ∃ (qs rs : String) (price qtyF : PyFloat),
      rawRaju.quantity = some qs ∧ rawRaju.rate = some rs ∧
      pyFloatOfString (pyStrip (stripCommas rs)) = some price ∧
      pyFloatOfInt (parseDigits (digitsOf qs).data) = some qtyF ∧
      recRaju.total = pyCurrencyFormat (pyMul qtyF price) :=
  c2_total_double_product rawRaju "October 12, 2025" recRaju (by decide)

/-- Witness for C3: with every credential present and Resend succeeding,
dispatch stops after the single Resend attempt. -/
theorem c3_witness :
    send_email_with_attachment envEmailAll (some "/tmp/a.docx") =
      ⟨true, [Provider.resend], true, true⟩ :=
  (c3_dispatch_order envEmailAll (some "/tmp/a.docx")).2.1 (by decide) (by decide) rfl

/-- Witness for C5: quantity "abc" has no digits, so normalization fails
and the pipeline replies that it could not understand, rendering
nothing. -/
theorem c5_witness :
    normalize rawAbc (mkEnv rawAbc).today = none ∧
    handle_webhook_post (InboundPost.textMessage "15551234567" "quote abc")
      (mkEnv rawAbc) = ⟨200, some couldNotUnderstandMsg, false, noSend⟩ :=
  (c5_quantity_coercion rawAbc (mkEnv rawAbc) "15551234567" "quote abc" "abc"
    rfl (by decide) (by decide) rfl).2 (by decide)

/-- Witness for C6 (amended): in the spec scenario every optional field is
absent and each default is applied. -/
theorem c6_witness :
    recRaju.date = "October 12, 2025" ∧ recRaju.company_name = "" ∧
    recRaju.hsn = "" ∧ recRaju.q_no = "" ∧ recRaju.units = "Nos" :=
  have h := c6_defaults rawRaju "October 12, 2025" recRaju (by decide)
  ⟨h.1 rfl, h.2.1 rfl, h.2.2.1 rfl, h.2.2.2.1 rfl, h.2.2.2.2 (Or.inl rfl)⟩

/-- Witness for C8 (amended): in the spec scenario the record's rate
equals its formatted form, and the parsed rate and computed total are
finite doubles, so both presentation strings have the two-fractional-digit
currency shape. -/
theorem c8_witness :
    ∃ (rs : String) (price qtyF : PyFloat),
      rawRaju.rate = some rs ∧
      pyFloatOfString (pyStrip (stripCommas rs)) = some price ∧
      recRaju.rate = pyCurrencyFormat price ∧
      recRaju.rate = recRaju.rate_formatted ∧
      recRaju.total = pyCurrencyFormat (pyMul qtyF price) ∧
      (∀ neg m e, price = PyFloat.finite neg m e →
        ∃ mid d1 d2, recRaju.rate = "₹" ++ (mid ++ ("." ++ String.mk [d1, d2])) ∧
          d1.isDigit = true ∧ d2.isDigit = true) ∧
      (∀ neg m e, pyMul qtyF price = PyFloat.finite neg m e →
        ∃ mid d1 d2, recRaju.total = "₹" ++ (mid ++ ("." ++ String.mk [d1, d2])) ∧
          d1.isDigit = true ∧ d2.isDigit = true) :=
  c8_rate_overwritten rawRaju "October 12, 2025" recRaju (by decide)

/-- Witness for C9: normalizing the spec scenario twice yields the same
record. -/
theorem c9_witness : recRaju = recRaju :=
  (c9_normalize_deterministic rawRaju "October 12, 2025").2 recRaju recRaju
    (by decide) (by decide)

/-- Witness for C10: quantity "-5" normalizes to the nonnegative quantity
5. -/
theorem c10_witness :
    ((∃ n : Nat, recNeg.quantity = Nat.repr n) ∧
      digitsOf "-5" = "5" ∧ digitsOf "2.5" = "25" ∧
      parseDigits (digitsOf "-5").data = 5 ∧ parseDigits (digitsOf "2.5").data = 25) ∧
    (normalize rawNeg "October 12, 2025").map QuotationContext.quantity = some "5" :=
  ⟨c10_quantity_digits_only rawNeg "October 12, 2025" recNeg (by decide), by decide⟩

end App
